import Mathlib

/-
Verification of the `scanny` TCP port scanner (src/src/lib.rs).

The scanner probes every port 0..=65535 of a target address: for each port it
spawns a task running `check_port`, which wraps `TcpStream::connect` in a
1-second `tokio::time::timeout` and returns `true` exactly when the timeout
did not elapse and the connect succeeded.  The results are joined in spawn
order (`futures::future::join_all` preserves input order) and every
`Ok(Some(port))` join result is pushed onto the output vector.

The network is external to the program, so it is modelled as an oracle: a
function from (address, port) to the behaviour of the connect future, namely
how many milliseconds it takes to resolve and whether it resolves to a
successful connection or to a connection error.
-/

namespace Scanny

/-- Causes of a failed TCP connect attempt.  The code never inspects the
cause: `check_port` collapses every `Err` into `false`. -/
inductive ConnError
  | refused
  | unreachable
  | dnsFailure
  | other

/-- Behaviour of one `TcpStream::connect((ip, port))` future: the time in
milliseconds until it resolves, and its resolution (success or a connect
error). -/
structure ConnAttempt where
  latencyMs : Nat
  result : Except ConnError Unit

/-- The network oracle: for each address string and port number, the
behaviour of the connect attempt to that pair.  A fixed oracle models an
unchanged network during (and across) scans. -/
abbrev Network := String → Nat → ConnAttempt

/-- `const MAX_PORT: u16 = 65535;` from the source. -/
def MAX_PORT : Nat := 65535

/-- The per-probe timeout from `Duration::from_secs(1)` in `check_port`. -/
def timeoutSecs : Nat := 1

/-- The per-probe timeout expressed in milliseconds. -/
def timeoutMs : Nat := 1000 * timeoutSecs

/-- The error value produced by `tokio::time::timeout` when the deadline
passes before the inner future resolves. -/
inductive Elapsed
  | elapsed

/-- Model of `tokio::time::timeout(d, fut)`: if the future resolves within
the deadline its resolution is returned under `Ok`, otherwise the timeout
error is returned. -/
def timeoutRun (dMs : Nat) (a : ConnAttempt) : Except Elapsed (Except ConnError Unit) :=
  if a.latencyMs ≤ dMs then Except.ok a.result else Except.error Elapsed.elapsed

/-- Embedding of `Scanner::check_port`: `true` exactly on
`Ok(Ok(_))` — the timeout did not elapse and the connect succeeded; every
other combination (timeout elapsed, or any connect error) gives `false`. -/
def check_port (net : Network) (ip : String) (port : Nat) : Bool :=
  match timeoutRun timeoutMs (net ip port) with
  | Except.ok (Except.ok _) => true
  | _ => false

/-- The error side of `tokio::task::JoinHandle`: a spawned task can fail to
join if it panicked or was cancelled. -/
inductive JoinError
  | panicked
  | cancelled

/-- Body of the task spawned for one port inside `scan`:
`if Scanner::check_port(&ip, port).await { Some(port) } else { None }`. -/
def spawnTask (net : Network) (ip : String) (port : Nat) : Option Nat :=
  if check_port net ip port then some port else none

/-- The ports iterated by the spawn loop `for port in 0..=MAX_PORT`, in
loop order. -/
def probedPorts : List Nat := List.range (MAX_PORT + 1)

/-- The list produced by `futures::future::join_all(tasks).await`: one join
result per spawned task, in spawn order.  The task bodies contain no panic
and are never cancelled, so every join result is `Ok`. -/
def joinResults (net : Network) (ip : String) : List (Except JoinError (Option Nat)) :=
  probedPorts.map (fun port => Except.ok (spawnTask net ip port))

/-- Embedding of the aggregation loop of `scan`: walk the join results in
order and push the port of every `Ok(Some(port))`; `Ok(None)` and `Err(_)`
results are skipped. -/
def aggregate : List (Except JoinError (Option Nat)) → List Nat
  | [] => []
  | Except.ok (some p) :: rest => p :: aggregate rest
  | Except.ok none :: rest => aggregate rest
  | Except.error _ :: rest => aggregate rest

/-- Embedding of `Scanner::scan`: spawn one task per port, join them all,
aggregate the successes. -/
def scan (net : Network) (ip : String) : List Nat :=
  aggregate (joinResults net ip)

/-- A network on which every connect attempt succeeds immediately. -/
def allOpenNet : Network := fun _ _ => ⟨0, Except.ok ()⟩

/-- A network on which every connect attempt is refused immediately, e.g. a
malformed or unreachable address. -/
def allClosedNet : Network := fun _ _ => ⟨0, Except.error ConnError.refused⟩

/-- A network agreeing with `allOpenNet` on every port in scanning range but
differing outside it; used to exercise the idempotence theorem on two
distinct oracles. -/
def openNetVariant : Network := fun _ p =>
  if p ≤ MAX_PORT then ⟨0, Except.ok ()⟩
  else ⟨5000, Except.error ConnError.other⟩

/- ### Helper lemmas -/

theorem aggregate_map_ok (l : List (Option Nat)) :
    aggregate (l.map Except.ok) = l.filterMap id := by
  induction l with
  | nil => rfl
  | cons a rest ih =>
    cases a with
    | none => simpa [aggregate] using ih
    | some p => simpa [aggregate] using ih

theorem filterMap_guard (c : Nat → Bool) (l : List Nat) :
    l.filterMap (fun p => if c p then some p else none) = l.filter c := by
  induction l with
  | nil => rfl
  | cons a rest ih =>
    by_cases h : c a <;> simp [List.filterMap_cons, List.filter_cons, h, ih]

theorem scan_eq_filter (net : Network) (ip : String) :
    scan net ip = probedPorts.filter (fun p => check_port net ip p) := by
  have h1 : scan net ip = (probedPorts.map (spawnTask net ip)).filterMap id := by
    have hm : (fun port => (Except.ok (spawnTask net ip port) : Except JoinError (Option Nat)))
        = (Except.ok : Option Nat → Except JoinError (Option Nat)) ∘ (spawnTask net ip) := rfl
    rw [scan, joinResults, hm, ← List.map_map, aggregate_map_ok]
  rw [h1, List.filterMap_map]
  show probedPorts.filterMap (spawnTask net ip) = _
  simpa [spawnTask] using filterMap_guard (fun p => check_port net ip p) probedPorts

theorem check_port_eq_true_iff (net : Network) (ip : String) (p : Nat) :
    check_port net ip p = true ↔
      ((net ip p).latencyMs ≤ timeoutMs ∧ (net ip p).result = Except.ok ()) := by
  unfold check_port timeoutRun
  by_cases h : (net ip p).latencyMs ≤ timeoutMs
  · cases hr : (net ip p).result with
    | ok u => cases u; simp [h, hr]
    | error e => simp [h, hr]
  · simp [h]

theorem mem_scan_iff (net : Network) (ip : String) (p : Nat) :
    p ∈ scan net ip ↔ p ≤ MAX_PORT ∧ check_port net ip p = true := by
  rw [scan_eq_filter, List.mem_filter, probedPorts, List.mem_range,
    Nat.lt_succ_iff]

/- ### Claim theorems -/

/-- C1: for every address string and every port p in [0, 65535], p is an
element of the list returned by `scan address` iff the TCP connection
attempt to (address, p) succeeded within the timeout window; ports whose
attempt failed or timed out are never in the result. -/
theorem C1_scan_mem_iff_probe_success (net : Network) (ip : String) (p : Nat)
    (hp : p ≤ MAX_PORT) :
    p ∈ scan net ip ↔
      ((net ip p).latencyMs ≤ timeoutMs ∧ (net ip p).result = Except.ok ()) := by
  rw [mem_scan_iff, check_port_eq_true_iff]
  simp [hp]

theorem C1_witness :
    3000 ≤ MAX_PORT ∧
      (3000 ∈ scan allOpenNet ("127.0.0.1") ↔
        ((allOpenNet ("127.0.0.1") 3000).latencyMs ≤ timeoutMs ∧
          (allOpenNet ("127.0.0.1") 3000).result = Except.ok ())) :=
  ⟨by decide, C1_scan_mem_iff_probe_success allOpenNet ("127.0.0.1") 3000 (by decide)⟩

/-- C2: `scan` probes every port in [0, 65535] exactly once — the spawn
loop iterates each port exactly once (no skip, no repeat, no retry) — and
the task for each port determines exactly one binary outcome, `some port`
(open) or `none` (not open). -/
theorem C2_each_port_probed_once (net : Network) (ip : String) (p : Nat)
    (hp : p ≤ MAX_PORT) :
    probedPorts.count p = 1 ∧
      (spawnTask net ip p = some p ∨ spawnTask net ip p = none) := by
  constructor
  · have hmem : p ∈ probedPorts := by
      rw [probedPorts, List.mem_range, Nat.lt_succ_iff]
      exact hp
    exact List.count_eq_one_of_mem (List.nodup_range _) hmem
  · unfold spawnTask
    by_cases h : check_port net ip p <;> simp [h]

theorem C2_witness :
    80 ≤ MAX_PORT ∧
      (probedPorts.count 80 = 1 ∧
        (spawnTask allClosedNet ("10.0.0.1") 80 = some 80 ∨
          spawnTask allClosedNet ("10.0.0.1") 80 = none)) :=
  ⟨by decide, C2_each_port_probed_once allClosedNet ("10.0.0.1") 80 (by decide)⟩

/-- C3: `scan` never propagates an error: every per-probe failure cause
(any connect error — refused, unreachable, DNS failure, other — or timeout
expiry) collapses into the single not-open outcome `check_port = false`,
and an address on which every probe fails (e.g. malformed or unreachable)
yields the empty list rather than an error value; `scan`'s return type is a
plain list, so no error value can be returned at all. -/
theorem C3_failures_collapse_no_error (net : Network) (ip : String) :
    (∀ p e, (net ip p).result = Except.error e → check_port net ip p = false) ∧
      (∀ p, timeoutMs < (net ip p).latencyMs → check_port net ip p = false) ∧
      ((∀ p, p ≤ MAX_PORT → check_port net ip p = false) → scan net ip = []) := by
  refine ⟨?_, ?_, ?_⟩
  · intro p e he
    rcases Bool.eq_false_or_eq_true (check_port net ip p) with h | h
    · rw [check_port_eq_true_iff] at h
      rw [he] at h
      exact absurd h.2 (by simp)
    · exact h
  · intro p hlt
    rcases Bool.eq_false_or_eq_true (check_port net ip p) with h | h
    · rw [check_port_eq_true_iff] at h
      exact absurd h.1 (Nat.not_le_of_lt hlt)
    · exact h
  · intro hall
    rw [scan_eq_filter]
    rw [List.filter_eq_nil_iff]
    intro p hmem
    have hple : p ≤ MAX_PORT := by
      rw [probedPorts, List.mem_range, Nat.lt_succ_iff] at hmem
      exact hmem
    simp [hall p hple]

theorem C3_witness : scan allClosedNet ("999.999.999.999") = [] :=
  (C3_failures_collapse_no_error allClosedNet ("999.999.999.999")).2.2
    (fun _ _ => rfl)

/-- C4: `scan` joins all 65536 per-port tasks before aggregating — the join
list has one entry per port — and there is no short-circuit on finding an
open port: every port whose probe succeeded is in the result, including
ports probed after an earlier success. -/
theorem C4_waits_for_all_probes (net : Network) (ip : String) :
    (joinResults net ip).length = MAX_PORT + 1 ∧
      (∀ p, p ≤ MAX_PORT → check_port net ip p = true → p ∈ scan net ip) := by
  constructor
  · rw [joinResults, List.length_map, probedPorts, List.length_range]
  · intro p hp hc
    rw [mem_scan_iff]
    exact ⟨hp, hc⟩

theorem C4_witness : 65535 ∈ scan allOpenNet ("127.0.0.1") :=
  (C4_waits_for_all_probes allOpenNet ("127.0.0.1")).2 65535 (by decide) rfl

/-- C5: every probe is bounded by the single fixed timeout of exactly
1 second — a connect not established within `1000 * timeoutSecs`
milliseconds is classified not-open — and no other timeout exists: the
scan result is fully determined by the per-port `check_port` outcomes, with
no scan-level deadline anywhere in the model. -/
theorem C5_fixed_one_second_timeout (net : Network) (ip : String) :
    timeoutSecs = 1 ∧
      (∀ p, check_port net ip p = true ↔
        ((net ip p).latencyMs ≤ 1000 * timeoutSecs ∧
          (net ip p).result = Except.ok ())) ∧
      scan net ip = probedPorts.filter (fun p => check_port net ip p) :=
  ⟨rfl, fun p => check_port_eq_true_iff net ip p, scan_eq_filter net ip⟩

/-- C6: the list returned by `scan` contains no duplicate entries. -/
theorem C6_no_duplicates (net : Network) (ip : String) :
    (scan net ip).Nodup := by
  rw [scan_eq_filter, probedPorts]
  exact (List.nodup_range _).filter _

/-- C7: classification is idempotent across runs: if each per-port probe
outcome is a fixed function of (address, port) — two network oracles agree
on every scanned port of the address — then the two scans return the same
list. -/
theorem C7_idempotent_classification (net1 net2 : Network) (ip : String)
    (h : ∀ p, p ≤ MAX_PORT → net1 ip p = net2 ip p) :
    scan net1 ip = scan net2 ip := by
  rw [scan_eq_filter, scan_eq_filter]
  apply List.filter_congr
  intro p hmem
  have hple : p ≤ MAX_PORT := by
    rw [probedPorts, List.mem_range, Nat.lt_succ_iff] at hmem
    exact hmem
  simp only [check_port, h p hple]

theorem C7_witness : scan allOpenNet ("127.0.0.1") = scan openNetVariant ("127.0.0.1") :=
  C7_idempotent_classification allOpenNet openNetVariant ("127.0.0.1")
    (fun p hp => by simp [allOpenNet, openNetVariant, hp])

/-- C9: the list returned by `scan` is always strictly ascending in port
order: the join results come back in spawn order (port 0 first, port 65535
last) and the aggregation loop preserves that order. -/
theorem C9_sorted_ascending (net : Network) (ip : String) :
    List.Sorted (fun a b => a < b) (scan net ip) := by
  rw [scan_eq_filter, probedPorts]
  exact (List.pairwise_lt_range _).filter _

theorem aggregate_append (l1 l2 : List (Except JoinError (Option Nat))) :
    aggregate (l1 ++ l2) = aggregate l1 ++ aggregate l2 := by
  induction l1 with
  | nil => rfl
  | cons r rest ih =>
    match r with
    | Except.ok (some q) => simp [aggregate, ih]
    | Except.ok none => simp [aggregate, ih]
    | Except.error j => simp [aggregate, ih]

/-- C10: the aggregation loop is total and never unwraps a failed join: an
`Err` join result anywhere in the list is silently discarded, and a port is
in the aggregate exactly when its join result is `Ok (Some port)` — so
`scan` always returns a plain list for every input. -/
theorem C10_total_discards_join_failures :
    (∀ (rs1 rs2 : List (Except JoinError (Option Nat))) (e : JoinError),
        aggregate (rs1 ++ Except.error e :: rs2) = aggregate (rs1 ++ rs2)) ∧
      (∀ (rs : List (Except JoinError (Option Nat))) (p : Nat),
        p ∈ aggregate rs ↔ Except.ok (some p) ∈ rs) := by
  constructor
  · intro rs1 rs2 e
    rw [aggregate_append, aggregate_append]
    rfl
  · intro rs p
    induction rs with
    | nil => simp [aggregate]
    | cons r rest ih =>
      match r with
      | Except.ok (some q) => simp [aggregate, ih]
      | Except.ok none => simp [aggregate, ih]
      | Except.error j => simp [aggregate, ih]

end Scanny
